import Mathlib

/-
  Verification development for the face-verification web service in app2.py.

  The service wires a Flask route `/verify` to the external face_recognition
  library.  We embed the handler `verify_face` and the module-level
  initialization block as pure Lean functions.  The external library is
  modelled as a structure of functions returning `Except String _`:
  `Except.error msg` models a Python exception whose `str(e)` is `msg`.
  The mutable global `golden_face_encoding` is threaded explicitly: the
  handler takes its value before the request and returns its value after
  the request together with the HTTP response.
-/

namespace App2

/-- An HTTP request as the handler sees it: the multipart file fields,
each a field name paired with the uploaded raw bytes. -/
structure Request where
  files : List (String × List Nat)
deriving DecidableEq, Repr

/-- A JSON response together with its HTTP status code.  `jsonify` with no
explicit code gives code 200; `error = none` means the JSON body has no
error field. -/
structure Response where
  status : String
  error : Option String
  code : Nat
deriving DecidableEq, Repr

/-- The external face_recognition library, as the black-box two-call contract
the service relies on.  `load_image_file` is modelled twice, once for a path
argument (used at initialization) and once for a byte-stream argument (used
by the handler); `Except.error msg` models the call raising an exception
whose message is `msg`. -/
structure FaceLib (Image Encoding : Type) where
  load_image_file_path : String → Except String Image
  load_image_file_bytes : List Nat → Except String Image
  face_encodings : Image → Except String (List Encoding)
  compare_faces : List Encoding → Encoding → Except String (List Bool)

/-- The filesystem facts the initialization block queries via os.path.exists. -/
structure FileSystem where
  path_exists : String → Bool

/-- os.path.join for the relative paths used by the module. -/
def path_join (a b : String) : String := a ++ "/" ++ b

/-- FACE_DATA_DIR = os.path.join(BASE_DIR, "face_data"). -/
def FACE_DATA_DIR (base : String) : String := path_join base "face_data"

/-- GOLDEN_IMAGE_PATH = os.path.join(FACE_DATA_DIR, "preethi_golden.jpg"). -/
def GOLDEN_IMAGE_PATH (base : String) : String :=
  path_join (FACE_DATA_DIR base) "preethi_golden.jpg"

/-- The templates directory checked by the initialization block. -/
def TEMPLATES_DIR (base : String) : String := path_join base "templates"

/-- The module-level initialization block computing `golden_face_encoding`.
The three os.path.exists checks only print diagnostics, so they bind unused
values here; the descriptor is determined by loading the golden image and
taking the first face encoding.  Any `Except.error` (a raised exception)
falls to the module-level `except` clause, which leaves the descriptor
`none`; likewise an empty encoding list leaves it `none`. -/
def init_golden_encoding {Image Encoding : Type}
    (fs : FileSystem) (lib : FaceLib Image Encoding) (base : String) :
    Option Encoding :=
  let _check_face_data := fs.path_exists (FACE_DATA_DIR base)
  let _check_golden := fs.path_exists (GOLDEN_IMAGE_PATH base)
  let _check_templates := fs.path_exists (TEMPLATES_DIR base)
  match lib.load_image_file_path (GOLDEN_IMAGE_PATH base) with
  | Except.error _ => none
  | Except.ok golden_image_file =>
    match lib.face_encodings golden_image_file with
    | Except.error _ => none
    | Except.ok [] => none
    | Except.ok (e :: _) => some e

/-- The second try block of the handler: encode the probe image, return the
no-face verdict on an empty list, otherwise compare the first face against
the one known (golden) encoding and read results[0].  An `Except.error`
models an exception escaping to the enclosing `except` clause; reading
results[0] from an empty list raises IndexError with the standard message. -/
def verify_stage2 {Image Encoding : Type} (lib : FaceLib Image Encoding)
    (golden : Encoding) (unknown_image : Image) : Except String Response :=
  match lib.face_encodings unknown_image with
  | Except.error e => Except.error e
  | Except.ok unknown_face_encodings =>
    match unknown_face_encodings with
    | [] => Except.ok ⟨"failure", some "No face detected", 200⟩
    | first :: _ =>
      match lib.compare_faces [golden] first with
      | Except.error e => Except.error e
      | Except.ok results =>
        match results with
        | [] => Except.error "list index out of range"
        | r :: _ =>
          if r then Except.ok ⟨"success", none, 200⟩
          else Except.ok ⟨"failure", none, 200⟩

/-- The POST /verify handler.  Checks the image field, then readiness, then
decodes the bytes (first try block), then runs `verify_stage2` (second try
block) with its `except` clause turning an exception message into a
200-class failure body.  The second component is the value of the global
`golden_face_encoding` after the request; the handler never assigns it. -/
def verify_face {Image Encoding : Type} (lib : FaceLib Image Encoding)
    (golden_face_encoding : Option Encoding) (req : Request) :
    Response × Option Encoding :=
  match List.lookup "image" req.files with
  | none => (⟨"failure", some "No image file found", 400⟩, golden_face_encoding)
  | some file =>
    match golden_face_encoding with
    | none => (⟨"failure", some "Server not ready", 500⟩, golden_face_encoding)
    | some golden =>
      match lib.load_image_file_bytes file with
      | Except.error _ =>
        (⟨"failure", some "Could not process image", 400⟩, golden_face_encoding)
      | Except.ok unknown_image =>
        match verify_stage2 lib golden unknown_image with
        | Except.ok resp => (resp, golden_face_encoding)
        | Except.error msg =>
          (⟨"failure", some msg, 200⟩, golden_face_encoding)

/-- Helper: the handler returns the global descriptor unchanged on every
control path. -/
theorem verify_face_state {Image Encoding : Type} (lib : FaceLib Image Encoding)
    (golden : Option Encoding) (req : Request) :
    (verify_face lib golden req).2 = golden := by
  unfold verify_face
  repeat first
  | rfl
  | split

/-- A concrete library instance over Image = Nat, Encoding = Nat, used by
witnesses: bytes decode to their length, an image n yields the encodings
List.range n (so image 0 has no face), and comparison tests equality. -/
def demo_lib : FaceLib Nat Nat where
  load_image_file_path := fun _ => Except.ok 0
  load_image_file_bytes := fun bs => Except.ok bs.length
  face_encodings := fun img => Except.ok (List.range img)
  compare_faces := fun known e => Except.ok (known.map (fun k => k == e))

/-- A concrete library instance whose every call raises, used by witnesses
for the error-path claims. -/
def err_lib : FaceLib Nat Nat where
  load_image_file_path := fun _ => Except.error "load failed"
  load_image_file_bytes := fun _ => Except.error "decode failed"
  face_encodings := fun _ => Except.error "encode failed"
  compare_faces := fun _ _ => Except.error "compare failed"

/-- A filesystem on which every path exists. -/
def fs_all : FileSystem := ⟨fun _ => true⟩

/-- A filesystem on which no path exists. -/
def fs_none : FileSystem := ⟨fun _ => false⟩

/-- C1: if the image field is present, the server is ready, the bytes decode,
and the probe yields at least one face encoding, the handler compares the
first detected face against the stored golden encoding via the library
decision, returning status success when it is true and status failure with
no error field when it is false, both with HTTP 200. -/
theorem verify_match_verdict {Image Encoding : Type} (lib : FaceLib Image Encoding)
    (g : Encoding) (req : Request) (bytes : List Nat) (img : Image)
    (e : Encoding) (rest : List Encoding) (r : Bool) (rs : List Bool)
    (hf : List.lookup "image" req.files = some bytes)
    (hl : lib.load_image_file_bytes bytes = Except.ok img)
    (he : lib.face_encodings img = Except.ok (e :: rest))
    (hc : lib.compare_faces [g] e = Except.ok (r :: rs)) :
    (verify_face lib (some g) req).1 =
      if r then ⟨"success", none, 200⟩ else ⟨"failure", none, 200⟩ := by
  simp [verify_face, verify_stage2, hf, hl, he, hc]
  cases r <;> simp

/-- Witness for C1: a matching face at a concrete input. -/
theorem verify_match_verdict_witness :
    (verify_face demo_lib (some 0) ⟨[("image", [7])]⟩).1 =
      if true then ⟨"success", none, 200⟩ else ⟨"failure", none, 200⟩ :=
  verify_match_verdict demo_lib 0 ⟨[("image", [7])]⟩ [7] 1 0 [] true []
    (by decide) rfl rfl rfl

/-- C2 counterexample: with the descriptor uninitialized, a POST /verify
request without the image field gets the missing-field 400 response, not
the server-not-ready 500 response, refuting the claim for that request. -/
theorem not_ready_missing_field_cex :
    (verify_face demo_lib (none : Option Nat) ⟨[]⟩).1 ≠
      ⟨"failure", some "Server not ready", 500⟩ := by decide

/-- C2 amended: if the descriptor is uninitialized, every request that does
carry the image field gets status failure, error Server not ready, HTTP 500,
and the library is never consulted (the result is the same for every lib). -/
theorem verify_not_ready {Image Encoding : Type} (lib : FaceLib Image Encoding)
    (req : Request) (bytes : List Nat)
    (hf : List.lookup "image" req.files = some bytes) :
    verify_face lib none req = (⟨"failure", some "Server not ready", 500⟩, none) := by
  simp [verify_face, hf]

/-- Witness for C2 amended at a concrete request. -/
theorem verify_not_ready_witness :
    verify_face demo_lib none ⟨[("image", [1])]⟩ =
      (⟨"failure", some "Server not ready", 500⟩, none) :=
  verify_not_ready demo_lib ⟨[("image", [1])]⟩ [1] (by decide)

/-- C3: a request without a file under field name image gets status failure,
error No image file found, HTTP 400, for every library and every descriptor
state (initialized or not). -/
theorem verify_missing_field {Image Encoding : Type} (lib : FaceLib Image Encoding)
    (golden : Option Encoding) (req : Request)
    (hf : List.lookup "image" req.files = none) :
    verify_face lib golden req =
      (⟨"failure", some "No image file found", 400⟩, golden) := by
  simp [verify_face, hf]

/-- Witness for C3 at a concrete request with an initialized descriptor. -/
theorem verify_missing_field_witness :
    verify_face demo_lib (some 5) ⟨[("photo", [1, 2])]⟩ =
      (⟨"failure", some "No image file found", 400⟩, some 5) :=
  verify_missing_field demo_lib (some 5) ⟨[("photo", [1, 2])]⟩ (by decide)

/-- C4: when the preconditions pass but the probe yields zero face
encodings, the body is status failure, error No face detected, and the HTTP
status is 200, not an error status. -/
theorem verify_no_face {Image Encoding : Type} (lib : FaceLib Image Encoding)
    (g : Encoding) (req : Request) (bytes : List Nat) (img : Image)
    (hf : List.lookup "image" req.files = some bytes)
    (hl : lib.load_image_file_bytes bytes = Except.ok img)
    (he : lib.face_encodings img = Except.ok []) :
    (verify_face lib (some g) req).1 = ⟨"failure", some "No face detected", 200⟩ := by
  simp [verify_face, verify_stage2, hf, hl, he]

/-- Witness for C4: the empty upload decodes to image 0, which has no face. -/
theorem verify_no_face_witness :
    (verify_face demo_lib (some 3) ⟨[("image", [])]⟩).1 =
      ⟨"failure", some "No face detected", 200⟩ :=
  verify_no_face demo_lib 3 ⟨[("image", [])]⟩ [] 0
    (by decide) rfl rfl

/-- C5: when the uploaded bytes fail to decode, the response is status
failure, error Could not process image, HTTP 400; and this check runs after
the field-presence check and after the readiness check: with the same
failing decoder, an unready server still answers Server not ready 500, and
a request without the field still answers No image file found 400. -/
theorem verify_bad_decode {Image Encoding : Type} (lib : FaceLib Image Encoding)
    (g : Encoding) (req req2 : Request) (bytes : List Nat) (msg : String)
    (hf : List.lookup "image" req.files = some bytes)
    (hl : lib.load_image_file_bytes bytes = Except.error msg)
    (hf2 : List.lookup "image" req2.files = none) :
    (verify_face lib (some g) req).1 =
        ⟨"failure", some "Could not process image", 400⟩
      ∧ (verify_face lib none req).1 = ⟨"failure", some "Server not ready", 500⟩
      ∧ (verify_face lib (some g) req2).1 =
          ⟨"failure", some "No image file found", 400⟩ := by
  refine ⟨?_, ?_, ?_⟩ <;> simp [verify_face, hf, hl, hf2]

/-- Witness for C5 with the always-raising library. -/
theorem verify_bad_decode_witness :
    (verify_face err_lib (some 2) ⟨[("image", [9])]⟩).1 =
        ⟨"failure", some "Could not process image", 400⟩
      ∧ (verify_face err_lib none ⟨[("image", [9])]⟩).1 =
          ⟨"failure", some "Server not ready", 500⟩
      ∧ (verify_face err_lib (some 2) ⟨[]⟩).1 =
          ⟨"failure", some "No image file found", 400⟩ :=
  verify_bad_decode err_lib 2 ⟨[("image", [9])]⟩ ⟨[]⟩ [9] "decode failed"
    (by decide) rfl (by decide)

/-- C6: after a successful decode, any exception raised while encoding or
comparing the probe (any error of the second try block) is caught and
reported as status failure with the exception message text and HTTP 200;
`verify_face` is total, so nothing propagates out of the handler. -/
theorem verify_internal_error {Image Encoding : Type} (lib : FaceLib Image Encoding)
    (g : Encoding) (req : Request) (bytes : List Nat) (img : Image) (msg : String)
    (hf : List.lookup "image" req.files = some bytes)
    (hl : lib.load_image_file_bytes bytes = Except.ok img)
    (hs : verify_stage2 lib g img = Except.error msg) :
    (verify_face lib (some g) req).1 = ⟨"failure", some msg, 200⟩ := by
  simp [verify_face, hf, hl, hs]

/-- Witness for C6: a library whose decode succeeds but whose encoding call
raises. -/
theorem verify_internal_error_witness :
    (verify_face
        { load_image_file_path := fun _ => Except.ok 0
          load_image_file_bytes := fun _ => Except.ok 0
          face_encodings := fun _ => Except.error "encode failed"
          compare_faces := fun _ _ => Except.ok [] }
        (some 4) ⟨[("image", [1])]⟩).1 =
      ⟨"failure", some "encode failed", 200⟩ :=
  verify_internal_error _ 4 ⟨[("image", [1])]⟩ [1] 0 "encode failed"
    (by decide) rfl rfl

/-- C7: at initialization, if the library returns zero face encodings for
the golden image the descriptor stays none, and if it returns one or more
the descriptor is exactly the first returned encoding. -/
theorem init_first_encoding {Image Encoding : Type} (fs : FileSystem)
    (lib : FaceLib Image Encoding) (base : String) (img : Image)
    (hl : lib.load_image_file_path (GOLDEN_IMAGE_PATH base) = Except.ok img) :
    (lib.face_encodings img = Except.ok ([] : List Encoding) →
        init_golden_encoding fs lib base = none)
      ∧ ∀ (e : Encoding) (rest : List Encoding),
          lib.face_encodings img = Except.ok (e :: rest) →
          init_golden_encoding fs lib base = some e := by
  constructor
  · intro he
    simp [init_golden_encoding, hl, he]
  · intro e rest he
    simp [init_golden_encoding, hl, he]

/-- Witness for C7: demo_lib loads the golden image as 0, which has zero
encodings, so the descriptor stays none. -/
theorem init_first_encoding_witness :
    init_golden_encoding fs_all demo_lib "/app" = none :=
  (init_first_encoding fs_all demo_lib "/app" 0 rfl).1 rfl

/-- C8: no execution path of the handler reassigns the reference descriptor
or any other state outliving the request: the descriptor after any request
equals its value before the request, for every library, descriptor state
and request. -/
theorem verify_no_state_mutation {Image Encoding : Type} (lib : FaceLib Image Encoding)
    (golden : Option Encoding) (req : Request) :
    (verify_face lib golden req).2 = golden :=
  verify_face_state lib golden req

/-- C9: with the same process state, running the handler twice on
byte-identical requests yields the same response and the same state both
times: the second run (from the state the first run leaves) returns
exactly what the first run returned. -/
theorem verify_deterministic_repeat {Image Encoding : Type}
    (lib : FaceLib Image Encoding) (golden : Option Encoding) (req : Request) :
    verify_face lib (verify_face lib golden req).2 req =
      verify_face lib golden req := by
  rw [verify_face_state]

/-- C10: if loading the golden image raises (as it does when the file is
missing), then whatever the existence checks observed, the descriptor ends
up none, and every later request carrying the image field gets the
server-not-ready 500 response. -/
theorem missing_golden_gives_not_ready {Image Encoding : Type} (fs : FileSystem)
    (lib : FaceLib Image Encoding) (base msg : String) (req : Request)
    (bytes : List Nat)
    (_hmiss : fs.path_exists (GOLDEN_IMAGE_PATH base) = false)
    (hload : lib.load_image_file_path (GOLDEN_IMAGE_PATH base) = Except.error msg)
    (hf : List.lookup "image" req.files = some bytes) :
    init_golden_encoding fs lib base = none
      ∧ (verify_face lib (init_golden_encoding fs lib base) req).1 =
          ⟨"failure", some "Server not ready", 500⟩ := by
  have hinit : init_golden_encoding fs lib base = (none : Option Encoding) := by
    simp [init_golden_encoding, hload]
  refine ⟨hinit, ?_⟩
  rw [hinit]
  simp [verify_face, hf]

/-- Witness for C10: a filesystem with no files and a library whose load
raises. -/
theorem missing_golden_gives_not_ready_witness :
    init_golden_encoding fs_none err_lib "/app" = none
      ∧ (verify_face err_lib (init_golden_encoding fs_none err_lib "/app")
            ⟨[("image", [1])]⟩).1 =
          ⟨"failure", some "Server not ready", 500⟩ :=
  missing_golden_gives_not_ready fs_none err_lib "/app" "load failed"
    ⟨[("image", [1])]⟩ [1] rfl rfl (by decide)

end App2
